import Mathlib

/-!
Verification of the RV3032-C7 RTC driver core against its specification.

The definitions below are a shallow embedding of the driver implementation
(`src/RV3032.cpp`, final revision, together with the type declarations of the
library headers).  Machine integers are modelled as `Nat` with explicit
`% 2 ^ w` masking at the points where the C++ code relies on the width of the
type; the two bounded `for`-loops of the calendar codec are modelled with an
explicit fuel argument equal to the bound the C++ loop condition enforces.
-/

set_option maxRecDepth 10000

-- ===== Status / error model (include/RV3032/Status.h, final revision) =====

inductive Err where
  | OK
  | NOT_INITIALIZED
  | INVALID_CONFIG
  | I2C_ERROR
  | TIMEOUT
  | INVALID_PARAM
  | INVALID_DATETIME
  | DEVICE_NOT_FOUND
  | EEPROM_WRITE_FAILED
  | REGISTER_READ_FAILED
  | REGISTER_WRITE_FAILED
  | IN_PROGRESS
  | QUEUE_FULL
deriving DecidableEq

structure Status where
  code : Err
  detail : Int
  msg : String
deriving DecidableEq

def Status.isOkB (s : Status) : Bool := s.code == Err.OK

def Status.Ok : Status := ⟨Err.OK, 0, "OK"⟩

def Status.Error (e : Err) (m : String) (d : Int) : Status := ⟨e, d, m⟩

-- ===== Calendar codec (pure static functions of RV3032.cpp) =====

/-- `RV3032::bcdToBin`: `(v >> 4) * 10 + (v & 0x0F)`. -/
def bcdToBin (v : Nat) : Nat := (v >>> 4) * 10 + (v &&& 0x0F)

/-- `RV3032::binToBcd`: returns `0x99` for out-of-range input, else
`((v / 10) << 4) | (v % 10)`. -/
def binToBcd (v : Nat) : Nat :=
  if 99 < v then 0x99 else ((v / 10) <<< 4) ||| (v % 10)

/-- Public alias `RV3032::bcdToBinary`. -/
def bcdToBinary (v : Nat) : Nat := bcdToBin v

/-- Public alias `RV3032::binaryToBcd`. -/
def binaryToBcd (v : Nat) : Nat := binToBcd v

/-- `RV3032::isLeapYear`: divisible by 4, except centuries, except multiples
of 400. -/
def isLeapYear (y : Nat) : Bool :=
  y % 4 == 0 && (y % 100 != 0 || y % 400 == 0)

/-- Length in days of year `y`, as summed by the loop in `dateToDays`. -/
def yearLenOf (y : Nat) : Nat := if isLeapYear y = true then 366 else 365

/-- The year-summing loop of `RV3032::dateToDays`:
`for (y = 1970; y < year; ++y) days += isLeapYear(y) ? 366 : 365`. -/
def sumYears : Nat → Nat
  | 0 => 0
  | y + 1 => if y + 1 ≤ 1970 then 0 else sumYears y + yearLenOf y

/-- The `kDays` month-length table of `RV3032::daysInMonth` (1-based). -/
def monthTable (m : Nat) : Nat :=
  match m with
  | 1 => 31 | 2 => 28 | 3 => 31 | 4 => 30 | 5 => 31 | 6 => 30
  | 7 => 31 | 8 => 31 | 9 => 30 | 10 => 31 | 11 => 30 | 12 => 31
  | _ => 0

/-- `RV3032::daysInMonth` with the leap-year test abstracted to a Bool. -/
def dimL (leap : Bool) (m : Nat) : Nat :=
  if m = 2 ∧ leap = true then 29
  else if m = 0 ∨ 12 < m then 0
  else monthTable m

/-- `RV3032::daysInMonth`. -/
def daysInMonth (y m : Nat) : Nat := dimL (isLeapYear y) m

/-- The `kDaysBeforeMonth` table of `RV3032::dateToDays` (1-based). -/
def daysBeforeMonth (m : Nat) : Nat :=
  match m with
  | 1 => 0 | 2 => 31 | 3 => 59 | 4 => 90 | 5 => 120 | 6 => 151
  | 7 => 181 | 8 => 212 | 9 => 243 | 10 => 273 | 11 => 304 | 12 => 334
  | _ => 0

/-- `RV3032::dateToDays`: days since 1970-01-01. -/
def dateToDays (year month day : Nat) : Nat :=
  sumYears year
  + (if 1 ≤ month ∧ month ≤ 12 then daysBeforeMonth month else 0)
  + (if 2 < month ∧ isLeapYear year = true then 1 else 0)
  + (if 0 < day then day - 1 else 0)

/-- `RV3032::computeWeekday`: `(dateToDays(y,m,d) + 4) % 7`. -/
def computeWeekday (year month day : Nat) : Nat :=
  (dateToDays year month day + 4) % 7

/-- `RV3032::DateTime` (all fields are unsigned machine integers). -/
structure DateTime where
  year : Nat
  month : Nat
  day : Nat
  hour : Nat
  minute : Nat
  second : Nat
  weekday : Nat
deriving DecidableEq

/-- `RV3032::isValidDateTime`: the early-return validation chain. -/
def isValidDateTime (t : DateTime) : Bool :=
  if t.year < 2000 ∨ 2099 < t.year then false
  else if t.month < 1 ∨ 12 < t.month then false
  else if t.day < 1 ∨ daysInMonth t.year t.month < t.day then false
  else if 23 < t.hour ∨ 59 < t.minute ∨ 59 < t.second then false
  else if 6 < t.weekday then false
  else true

/-- `kEpoch2000 = 946684800UL` (2000-01-01 00:00:00 UTC). -/
def kEpoch2000 : Nat := 946684800

/-- The year-search loop of `RV3032::unixToDate`
(`for (; year <= 2099; ++year)`), with fuel equal to the loop bound. -/
def findYearAux : Nat → Nat → Nat → Nat × Nat
  | 0, year, days => (year, days)
  | fuel + 1, year, days =>
    if year ≤ 2099 then
      if days < yearLenOf year then (year, days)
      else findYearAux fuel (year + 1) (days - yearLenOf year)
    else (year, days)

/-- The month-search loop of `RV3032::unixToDate`
(`for (; month <= 12; ++month)`), with fuel equal to the loop bound. -/
def findMonthAux (leap : Bool) : Nat → Nat → Nat → Nat × Nat
  | 0, month, days => (month, days)
  | fuel + 1, month, days =>
    if month ≤ 12 then
      if days < dimL leap month then (month, days)
      else findMonthAux leap fuel (month + 1) (days - dimL leap month)
    else (month, days)

/-- `RV3032::unixToDate`. -/
def unixToDate (ts : Nat) : Option DateTime :=
  if ts < kEpoch2000 then none
  else
    let days := ts / 86400
    let rem := ts % 86400
    let yr := findYearAux 131 1970 days
    if 2099 < yr.1 ∨ yr.1 < 2000 then none
    else
      let mr := findMonthAux (isLeapYear yr.1) 13 1 yr.2
      if 12 < mr.1 then none
      else
        some { year := yr.1, month := mr.1, day := mr.2 + 1,
               hour := rem / 3600, minute := (rem % 3600) / 60,
               second := (rem % 3600) % 60,
               weekday := computeWeekday yr.1 mr.1 (mr.2 + 1) }

/-- Public alias `RV3032::unixToDateTime`. -/
def unixToDateTime (ts : Nat) : Option DateTime := unixToDate ts

/-- `RV3032::dateTimeToUnix`: validate, then
`days * 86400 + hour * 3600 + minute * 60 + second`. -/
def dateTimeToUnix (t : DateTime) : Option Nat :=
  if isValidDateTime t = true then
    some (dateToDays t.year t.month t.day * 86400
      + t.hour * 3600 + t.minute * 60 + t.second)
  else none

-- ===== Driver data model (header declarations, final revision) =====

inductive DriverState where
  | UNINIT
  | READY
  | DEGRADED
  | OFFLINE
deriving DecidableEq

inductive BackupSwitchMode where
  | Off
  | Level
  | Direct
deriving DecidableEq

inductive EepromState where
  | Idle
  | ReadControl1
  | EnableEerd
  | WriteAddr
  | WriteData
  | WaitReadyPreCmd
  | WriteCmd
  | WaitReadyPostCmd
  | RestoreControl1
deriving DecidableEq

structure EepromWrite where
  reg : Nat
  value : Nat
deriving DecidableEq

/-- `RV3032::kEepromQueueSize = 8`. -/
def kEepromQueueSize : Nat := 8

/-- `kEepromPreCmdTimeoutMs = 50`. -/
def kEepromPreCmdTimeoutMs : Nat := 50

/-- `RV3032::EepromOp`: the in-flight persistence operation plus the circular
pending-write queue. -/
structure EepromOp where
  state : EepromState
  reg : Nat
  value : Nat
  control1 : Nat
  control1Valid : Bool
  countPending : Bool
  deadlineMs : Nat
  queue : Nat → EepromWrite
  queueHead : Nat
  queueTail : Nat
  queueCount : Nat

/-- The default-initialized `EepromOp{}`. -/
def EepromOp.init : EepromOp :=
  { state := EepromState.Idle, reg := 0, value := 0, control1 := 0,
    control1Valid := false, countPending := false, deadlineMs := 0,
    queue := fun _ => ⟨0, 0⟩, queueHead := 0, queueTail := 0, queueCount := 0 }

/-- `RV3032::Config` (transport callbacks modelled by presence flags; the
callbacks themselves live in the `BusModel` parameter). -/
structure Config where
  hasI2cWrite : Bool
  hasI2cWriteRead : Bool
  i2cAddress : Nat
  i2cTimeoutMs : Nat
  backupMode : BackupSwitchMode
  enableEepromWrites : Bool
  eepromTimeoutMs : Nat
  offlineThreshold : Nat
deriving DecidableEq

/-- The member state of a `RV3032` driver instance. -/
structure RV3032St where
  initialized : Bool
  beginInProgress : Bool
  config : Config
  driverState : DriverState
  eeprom : EepromOp
  eepromLastStatus : Status
  eepromWriteCount : Nat
  eepromWriteFailures : Nat
  lastOkMs : Nat
  lastError : Status
  lastErrorMs : Nat
  consecutiveFailures : Nat
  totalFailures : Nat
  totalSuccess : Nat

/-- The freshly constructed driver instance holding configuration `cfg`. -/
def initialState (cfg : Config) : RV3032St :=
  { initialized := false, beginInProgress := false, config := cfg,
    driverState := DriverState.UNINIT, eeprom := EepromOp.init,
    eepromLastStatus := Status.Ok, eepromWriteCount := 0,
    eepromWriteFailures := 0, lastOkMs := 0, lastError := Status.Ok,
    lastErrorMs := 0, consecutiveFailures := 0, totalFailures := 0,
    totalSuccess := 0 }

/-- One bus transaction, as recorded in the transcript of a run. -/
inductive BusEvent where
  | write (addr : Nat) (payload : List Nat)
  | read (addr : Nat) (tx : List Nat) (rxLen : Nat)
deriving DecidableEq

/-- The injected transport: the two externally supplied callbacks
(`i2cWrite`, `i2cWriteRead`), acting on an abstract bus state `β`. -/
structure BusModel (β : Type) where
  write : β → Nat → List Nat → Nat → Status × β
  writeRead : β → Nat → List Nat → Nat → Nat → Status × List Nat × β

/-- Driver state together with the bus state, the transcript of bus
transactions issued so far, and the current `millis()` value. -/
structure Sys (β : Type) where
  drv : RV3032St
  bus : β
  trace : List BusEvent
  now : Nat

-- ===== Health tracker (`RV3032::_updateHealth`) =====

/-- `RV3032::_updateHealth`: converts one tracked transaction outcome into
health counters and the availability state. -/
def updateHealth (now : Nat) (st : Status) (d : RV3032St) : RV3032St :=
  if st.code = Err.OK ∨ st.code = Err.IN_PROGRESS then
    let d1 := { d with
      lastOkMs := now,
      consecutiveFailures := 0,
      totalSuccess := (if d.totalSuccess < 4294967295 then
        d.totalSuccess + 1 else d.totalSuccess) }
    if d1.initialized = true ∧ (d1.driverState = DriverState.UNINIT ∨
        d1.driverState = DriverState.DEGRADED ∨
        d1.driverState = DriverState.OFFLINE) then
      { d1 with driverState := DriverState.READY }
    else d1
  else
    let d1 := { d with
      lastError := st,
      lastErrorMs := now,
      consecutiveFailures := (if d.consecutiveFailures < 255 then
        d.consecutiveFailures + 1 else d.consecutiveFailures),
      totalFailures := (if d.totalFailures < 4294967295 then
        d.totalFailures + 1 else d.totalFailures) }
    let d2 := if d1.initialized = true ∧ d1.consecutiveFailures = 1 ∧
        d1.driverState = DriverState.READY then
      { d1 with driverState := DriverState.DEGRADED }
    else d1
    if d2.initialized = true ∧
        d2.config.offlineThreshold ≤ d2.consecutiveFailures then
      { d2 with driverState := DriverState.OFFLINE }
    else d2

-- ===== Transport wrappers =====

/-- `RV3032::_i2cWriteReadRaw`: invoke the injected write-then-read callback,
never touching health. -/
def i2cWriteReadRaw {β : Type} (B : BusModel β) (s : Sys β) (tx : List Nat)
    (rxLen : Nat) : (Status × List Nat) × Sys β :=
  if s.drv.config.hasI2cWriteRead = false then
    ((Status.Error Err.INVALID_CONFIG "I2C read callback null" 0,
      List.replicate rxLen 0), s)
  else
    let r := B.writeRead s.bus s.drv.config.i2cAddress tx rxLen
      s.drv.config.i2cTimeoutMs
    ((r.1, r.2.1),
     { s with bus := r.2.2,
              trace := s.trace
                ++ [BusEvent.read s.drv.config.i2cAddress tx rxLen] })

/-- `RV3032::_i2cWriteRaw`. -/
def i2cWriteRaw {β : Type} (B : BusModel β) (s : Sys β) (buf : List Nat) :
    Status × Sys β :=
  if s.drv.config.hasI2cWrite = false then
    (Status.Error Err.INVALID_CONFIG "I2C write callback null" 0, s)
  else
    let r := B.write s.bus s.drv.config.i2cAddress buf s.drv.config.i2cTimeoutMs
    (r.1, { s with bus := r.2,
                   trace := s.trace
                     ++ [BusEvent.write s.drv.config.i2cAddress buf] })

/-- `RV3032::_i2cWriteReadTracked`: raw call, then health update. -/
def i2cWriteReadTracked {β : Type} (B : BusModel β) (s : Sys β) (tx : List Nat)
    (rxLen : Nat) : (Status × List Nat) × Sys β :=
  let r := i2cWriteReadRaw B s tx rxLen
  (r.1, { r.2 with drv := updateHealth r.2.now r.1.1 r.2.drv })

/-- `RV3032::_i2cWriteTracked`. -/
def i2cWriteTracked {β : Type} (B : BusModel β) (s : Sys β) (buf : List Nat) :
    Status × Sys β :=
  let r := i2cWriteRaw B s buf
  (r.1, { r.2 with drv := updateHealth r.2.now r.1 r.2.drv })

/-- `RV3032::_readRegisterRaw`. -/
def readRegisterRaw {β : Type} (B : BusModel β) (s : Sys β) (reg : Nat) :
    (Status × Nat) × Sys β :=
  let r := i2cWriteReadRaw B s [reg] 1
  ((r.1.1, r.1.2.headD 0), r.2)

/-- `RV3032::readRegs`: precondition checks, then one tracked transaction. -/
def readRegs {β : Type} (B : BusModel β) (s : Sys β) (reg : Nat) (len : Nat) :
    (Status × List Nat) × Sys β :=
  if s.drv.initialized = false ∧ s.drv.beginInProgress = false then
    ((Status.Error Err.NOT_INITIALIZED "Call begin() first" 0,
      List.replicate len 0), s)
  else if len = 0 then
    ((Status.Error Err.INVALID_PARAM "Invalid I2C read parameters" 0,
      List.replicate len 0), s)
  else if 255 < len then
    ((Status.Error Err.INVALID_PARAM "I2C read length too large" 0,
      List.replicate len 0), s)
  else
    i2cWriteReadTracked B s [reg] len

/-- `RV3032::writeRegs`: precondition checks, then one tracked transaction
whose payload is the start register followed by the data bytes. -/
def writeRegs {β : Type} (B : BusModel β) (s : Sys β) (reg : Nat)
    (data : List Nat) : Status × Sys β :=
  if s.drv.initialized = false ∧ s.drv.beginInProgress = false then
    (Status.Error Err.NOT_INITIALIZED "Call begin() first" 0, s)
  else if data.length = 0 then
    (Status.Error Err.INVALID_PARAM "Invalid I2C write parameters" 0, s)
  else if 15 < data.length then
    (Status.Error Err.INVALID_PARAM "I2C write length exceeds 15 bytes" 0, s)
  else
    i2cWriteTracked B s (reg :: data)

/-- `RV3032::readRegister`: the out-parameter is written only on success
(call sites initialize it to zero). -/
def readRegister {β : Type} (B : BusModel β) (s : Sys β) (reg : Nat) :
    (Status × Nat) × Sys β :=
  let r := readRegs B s reg 1
  ((r.1.1, if r.1.1.code = Err.OK then r.1.2.headD 0 else 0), r.2)

/-- `RV3032::writeRegister`. -/
def writeRegister {β : Type} (B : BusModel β) (s : Sys β) (reg value : Nat) :
    Status × Sys β :=
  writeRegs B s reg [value]

/-- `isI2cFailure` (anonymous namespace of RV3032.cpp). -/
def isI2cFailure (st : Status) : Bool :=
  st.code == Err.I2C_ERROR || st.code == Err.TIMEOUT

/-- `mapPresenceError` (anonymous namespace of RV3032.cpp). -/
def mapPresenceError (st : Status) : Status :=
  if st.code ≠ Err.OK ∧ isI2cFailure st = true then
    Status.Error Err.DEVICE_NOT_FOUND "RTC not responding" st.detail
  else st

/-- `RV3032::probe` (second revision): raw read of `REG_STATUS` (0x0D),
mapped through `mapPresenceError`; never calls `_updateHealth`. -/
def probe {β : Type} (B : BusModel β) (s : Sys β) : Status × Sys β :=
  if s.drv.initialized = false ∧ s.drv.beginInProgress = false then
    (Status.Error Err.NOT_INITIALIZED "Call begin() first" 0, s)
  else if s.drv.config.hasI2cWriteRead = false then
    (Status.Error Err.INVALID_CONFIG "I2C callbacks not configured" 0, s)
  else
    let r := readRegisterRaw B s 0x0D
    (mapPresenceError r.1.1, r.2)

-- ===== Persistence engine entry points =====

/-- `RV3032::eepromQueuePush`: write at `queueHead`, advance it modulo 8. -/
def eepromQueuePush (e : EepromOp) (reg value : Nat) : Bool × EepromOp :=
  if kEepromQueueSize ≤ e.queueCount then (false, e)
  else
    (true,
     { e with
         queue := fun i => if i = e.queueHead then ⟨reg, value⟩ else e.queue i,
         queueHead := (e.queueHead + 1) % kEepromQueueSize,
         queueCount := e.queueCount + 1 })

/-- `RV3032::eepromQueuePop`: read at `queueTail`, advance it modulo 8. -/
def eepromQueuePop (e : EepromOp) : Option (Nat × Nat) × EepromOp :=
  if e.queueCount = 0 then (none, e)
  else
    (some ((e.queue e.queueTail).reg, (e.queue e.queueTail).value),
     { e with queueTail := (e.queueTail + 1) % kEepromQueueSize,
              queueCount := e.queueCount - 1 })

/-- `RV3032::startEepromUpdate`. -/
def startEepromUpdate (d : RV3032St) (reg value now : Nat) : Status × RV3032St :=
  (Status.Error Err.IN_PROGRESS "EEPROM update in progress" 0,
   { d with
       eeprom := { d.eeprom with
         reg := reg,
         value := value,
         control1Valid := false,
         countPending := true,
         deadlineMs := now + kEepromPreCmdTimeoutMs,
         state := EepromState.ReadControl1 },
       eepromLastStatus := Status.Ok })

/-- `RV3032::queueEepromUpdate`: queue when busy (rejecting on a full queue),
start immediately when idle. -/
def queueEepromUpdate (d : RV3032St) (reg value now : Nat) : Status × RV3032St :=
  if d.eeprom.state ≠ EepromState.Idle ∨ 0 < d.eeprom.queueCount then
    let p := eepromQueuePush d.eeprom reg value
    if p.1 = false then
      (Status.Error Err.QUEUE_FULL "EEPROM queue full" 0, d)
    else
      (Status.Error Err.IN_PROGRESS "EEPROM update queued" 0,
       { d with eeprom := p.2 })
  else startEepromUpdate d reg value now

/-- `RV3032::writeEepromRegister` (second revision): read, skip when equal,
else volatile write followed by persistence hand-over. -/
def writeEepromRegister {β : Type} (B : BusModel β) (s : Sys β)
    (reg value : Nat) : Status × Sys β :=
  let r := readRegister B s reg
  if r.1.1.code ≠ Err.OK then (r.1.1, r.2)
  else if r.1.2 = value then (Status.Ok, r.2)
  else
    let w := writeRegister B r.2 reg value
    if w.1.code ≠ Err.OK then w
    else if w.2.drv.config.enableEepromWrites = false then (Status.Ok, w.2)
    else
      let q := queueEepromUpdate w.2.drv reg value w.2.now
      (q.1, { w.2 with drv := q.2 })

/-- `RV3032::_applyConfig`: read `REG_EEPROM_PMU` (0xC0), rewrite the backup
switching mode bits (`PMU_BSM_MASK = 0x30`) and persist when changed. -/
def applyConfig {β : Type} (B : BusModel β) (s : Sys β) : Status × Sys β :=
  let r := readRegister B s 0xC0
  if r.1.1.code ≠ Err.OK then (r.1.1, r.2)
  else
    let coe := r.1.2
    let newCoe :=
      match r.2.drv.config.backupMode with
      | BackupSwitchMode.Off => coe &&& 0xCF
      | BackupSwitchMode.Level => (coe &&& 0xCF) ||| 0x20
      | BackupSwitchMode.Direct => (coe &&& 0xCF) ||| 0x10
    if newCoe ≠ coe then
      let w := writeEepromRegister B r.2 0xC0 newCoe
      if w.1.code ≠ Err.OK ∧ w.1.code ≠ Err.IN_PROGRESS then w
      else (Status.Ok, w.2)
    else (Status.Ok, r.2)

-- ===== Lifecycle =====

/-- `RV3032::end`: reset health and persistence state (the stored
configuration is kept). -/
def endOp (d : RV3032St) : RV3032St :=
  { d with initialized := false, beginInProgress := false,
           driverState := DriverState.UNINIT,
           eeprom := EepromOp.init, eepromLastStatus := Status.Ok,
           eepromWriteCount := 0, eepromWriteFailures := 0,
           lastOkMs := 0, lastError := Status.Ok, lastErrorMs := 0,
           consecutiveFailures := 0, totalFailures := 0, totalSuccess := 0 }

/-- `RV3032::begin` (second revision): `end()` when re-initializing,
validation chain, state reset, threshold clamp, presence probe, stored
configuration application, transition to `READY`. -/
def beginOp {β : Type} (B : BusModel β) (cfg : Config) (s : Sys β) :
    Status × Sys β :=
  let s1 := if s.drv.initialized = true then { s with drv := endOp s.drv } else s
  if cfg.hasI2cWrite = false ∨ cfg.hasI2cWriteRead = false then
    (Status.Error Err.INVALID_CONFIG "I2C transport callbacks are null" 0, s1)
  else if cfg.i2cAddress ≠ 0x51 then
    (Status.Error Err.INVALID_CONFIG "RV3032 I2C address must be 0x51" 0, s1)
  else if cfg.i2cTimeoutMs = 0 then
    (Status.Error Err.INVALID_CONFIG "I2C timeout must be > 0" 0, s1)
  else if cfg.enableEepromWrites = true ∧ cfg.eepromTimeoutMs = 0 then
    (Status.Error Err.INVALID_CONFIG "EEPROM timeout must be > 0" 0, s1)
  else if cfg.enableEepromWrites = true ∧
      cfg.i2cTimeoutMs < kEepromPreCmdTimeoutMs then
    (Status.Error Err.INVALID_CONFIG
      "I2C timeout must be >= 50ms for EEPROM writes" 0, s1)
  else
    let cfg2 := if cfg.offlineThreshold < 1 then
      { cfg with offlineThreshold := 1 } else cfg
    let s2 := { s1 with
      drv := { (endOp s1.drv) with config := cfg2, beginInProgress := true } }
    let p := probe B s2
    if p.1.code ≠ Err.OK then
      (p.1, { p.2 with drv := { p.2.drv with beginInProgress := false } })
    else
      let a := applyConfig B p.2
      if a.1.code ≠ Err.OK ∧ a.1.code ≠ Err.IN_PROGRESS then
        (a.1, { a.2 with drv := { a.2.drv with beginInProgress := false } })
      else
        (Status.Ok,
         { a.2 with drv := { a.2.drv with
             initialized := true,
             driverState := DriverState.READY,
             beginInProgress := false } })

-- ===== Timer operation =====

/-- `RV3032::setTimer` (second revision): rewrite the timer-divisor and
timer-enable bits of `REG_CONTROL1` (0x10), write the low byte to
`REG_TIMER_LOW` (0x0B) and merge the high nibble-preserving byte into
`REG_TIMER_HIGH` (0x0C). -/
def setTimer {β : Type} (B : BusModel β) (s : Sys β) (ticks freqRaw : Nat)
    (enable : Bool) : Status × Sys β :=
  if s.drv.initialized = false then
    (Status.Error Err.NOT_INITIALIZED "Call begin() first" 0, s)
  else if 0x0FFF < ticks then
    (Status.Error Err.INVALID_PARAM "Timer ticks out of range" 0, s)
  else if 3 < freqRaw then
    (Status.Error Err.INVALID_PARAM "Timer frequency out of range" 0, s)
  else
    let r := readRegister B s 0x10
    if r.1.1.code ≠ Err.OK then (r.1.1, r.2)
    else
      let c1 := (r.1.2 &&& 0xF4) ||| (freqRaw &&& 0x03)
      let control1 := if enable = true then c1 ||| (1 <<< 3) else c1
      let low := ticks &&& 0xFF
      let r2 := readRegister B r.2 0x0C
      if r2.1.1.code ≠ Err.OK then (r2.1.1, r2.2)
      else
        let high := (r2.1.2 &&& 0xF0) ||| ((ticks >>> 8) &&& 0x0F)
        let w1 := writeRegister B r2.2 0x10 control1
        if w1.1.code ≠ Err.OK then w1
        else
          let w2 := writeRegister B w1.2 0x0B low
          if w2.1.code ≠ Err.OK then w2
          else writeRegister B w2.2 0x0C high

-- ===== A register-file transport instance =====

/-- Write `data` to consecutive registers starting at `reg` (the bus
auto-increments the address pointer; addresses and bytes wrap at 8 bits). -/
def storeBytes (regs : Nat → Nat) (reg : Nat) (data : List Nat) : Nat → Nat :=
  match data with
  | [] => regs
  | v :: rest =>
    storeBytes (fun r => if r = reg % 256 then v % 256 else regs r)
      (reg + 1) rest

/-- Read `len` bytes from consecutive registers starting at `reg`. -/
def readBytes (regs : Nat → Nat) (reg : Nat) (len : Nat) : List Nat :=
  (List.range len).map (fun i => regs ((reg + i) % 256) % 256)

/-- A register-file transport in which every transaction succeeds,
following the register wire format (first payload byte is the register
address, subsequent bytes auto-increment). -/
def regBus : BusModel (Nat → Nat) :=
  { write := fun b _addr payload _t =>
      match payload with
      | [] => (Status.Error Err.INVALID_PARAM "write invalid" 0, b)
      | reg :: data => (Status.Ok, storeBytes b reg data),
    writeRead := fun b _addr tx rxLen _t =>
      match tx with
      | [reg] => (Status.Ok, readBytes b reg rxLen, b)
      | _ => (Status.Error Err.INVALID_PARAM "read invalid" 0, [], b) }

/-- The abstract content of the circular pending-write queue, oldest first. -/
def eepromQueueList (e : EepromOp) : List EepromWrite :=
  (List.range e.queueCount).map
    (fun i => e.queue ((e.queueTail + i) % kEepromQueueSize))

/-- The ring-buffer invariant maintained by the queue operations. -/
def eepromQueueWF (e : EepromOp) : Prop :=
  e.queueTail < kEepromQueueSize ∧ e.queueCount ≤ kEepromQueueSize ∧
  e.queueHead = (e.queueTail + e.queueCount) % kEepromQueueSize

-- ===== Calendar codec lemmas =====

lemma sumYears_zero {y : Nat} (h : y ≤ 1970) : sumYears y = 0 := by
  cases y with
  | zero => rfl
  | succ n => simp only [sumYears, if_pos h]

lemma sumYears_succ {y : Nat} (h : 1970 ≤ y) :
    sumYears (y + 1) = sumYears y + yearLenOf y := by
  have h' : ¬ (y + 1 ≤ 1970) := by omega
  simp only [sumYears, if_neg h']

lemma sumYears_le_succ (y : Nat) : sumYears y ≤ sumYears (y + 1) := by
  by_cases h : 1970 ≤ y
  · rw [sumYears_succ h]; omega
  · rw [sumYears_zero (by omega : y ≤ 1970)]; exact Nat.zero_le _

lemma sumYears_mono {a b : Nat} (h : a ≤ b) : sumYears a ≤ sumYears b := by
  induction h with
  | refl => exact Nat.le_refl _
  | step _ ih => exact Nat.le_trans ih (sumYears_le_succ _)

lemma findYearAux_inv : ∀ (n fuel y0 D : Nat), 1970 ≤ y0 → n < fuel →
    y0 + n ≤ 2099 → sumYears (y0 + n) ≤ D →
    D < sumYears (y0 + n) + yearLenOf (y0 + n) →
    findYearAux fuel y0 (D - sumYears y0) = (y0 + n, D - sumYears (y0 + n)) := by
  intro n
  induction n with
  | zero =>
    intro fuel y0 D h0 hf h1 h2 h3
    obtain ⟨fuel, rfl⟩ : ∃ f, fuel = f + 1 := ⟨fuel - 1, by omega⟩
    simp only [Nat.add_zero] at h1 h2 h3
    simp only [findYearAux]
    rw [if_pos (by omega : y0 ≤ 2099)]
    rw [if_pos (by omega : D - sumYears y0 < yearLenOf y0)]
    simp only [Nat.add_zero]
  | succ n ih =>
    intro fuel y0 D h0 hf h1 h2 h3
    obtain ⟨fuel, rfl⟩ : ∃ f, fuel = f + 1 := ⟨fuel - 1, by omega⟩
    simp only [findYearAux]
    rw [if_pos (by omega : y0 ≤ 2099)]
    have hm0 : sumYears y0 ≤ sumYears (y0 + (n + 1)) := sumYears_mono (by omega)
    have hssucc : sumYears (y0 + 1) = sumYears y0 + yearLenOf y0 := sumYears_succ h0
    have hmono : sumYears (y0 + 1) ≤ sumYears (y0 + (n + 1)) := sumYears_mono (by omega)
    rw [if_neg (by omega : ¬ (D - sumYears y0 < yearLenOf y0))]
    rw [(by omega : D - sumYears y0 - yearLenOf y0 = D - sumYears (y0 + 1))]
    have h4 : y0 + 1 + n = y0 + (n + 1) := by omega
    have := ih fuel (y0 + 1) D (by omega) (by omega) (by omega)
      (by rw [h4]; exact h2) (by rw [h4]; exact h3)
    rw [h4] at this
    exact this

lemma findYearAux_big : ∀ (fuel y0 days : Nat), 1970 ≤ y0 →
    sumYears 2100 ≤ days + sumYears y0 → 2100 ≤ y0 + fuel →
    2100 ≤ (findYearAux fuel y0 days).1 := by
  intro fuel
  induction fuel with
  | zero =>
    intro y0 days h0 h1 h2
    simpa [findYearAux] using (by omega : 2100 ≤ y0)
  | succ fuel ih =>
    intro y0 days h0 h1 h2
    simp only [findYearAux]
    by_cases hy : y0 ≤ 2099
    · rw [if_pos hy]
      have hssucc : sumYears (y0 + 1) = sumYears y0 + yearLenOf y0 := sumYears_succ h0
      have hmono : sumYears (y0 + 1) ≤ sumYears 2100 := sumYears_mono (by omega)
      rw [if_neg (by omega : ¬ (days < yearLenOf y0))]
      exact ih (y0 + 1) (days - yearLenOf y0) (by omega) (by omega) (by omega)
    · rw [if_neg hy]
      simpa using (by omega : 2100 ≤ y0)

lemma monthSpan_le (L : Bool) : ∀ m, m < 13 → 1 ≤ m →
    daysBeforeMonth m + (if 2 < m ∧ L = true then 1 else 0) + dimL L m
      ≤ (if L = true then 366 else 365) := by
  cases L <;> decide

lemma dimL_le (L : Bool) : ∀ m, m < 13 → dimL L m ≤ 31 := by
  cases L <;> decide

lemma findMonthAux_inv (L : Bool) : ∀ m, m < 13 → ∀ d, d < 32 →
    (1 ≤ m ∧ 1 ≤ d ∧ d ≤ dimL L m) →
    findMonthAux L 13 1
      (daysBeforeMonth m + (if 2 < m ∧ L = true then 1 else 0) + (d - 1))
      = (m, d - 1) := by
  cases L <;> decide

lemma isValid_iff {t : DateTime} : isValidDateTime t = true ↔
    (2000 ≤ t.year ∧ t.year ≤ 2099 ∧ 1 ≤ t.month ∧ t.month ≤ 12 ∧
     1 ≤ t.day ∧ t.day ≤ daysInMonth t.year t.month ∧
     t.hour ≤ 23 ∧ t.minute ≤ 59 ∧ t.second ≤ 59 ∧ t.weekday ≤ 6) := by
  unfold isValidDateTime
  split_ifs <;> simp_all <;> omega

lemma calendar_roundtrip_core (t : DateTime) (hv : isValidDateTime t = true)
    (hw : t.weekday = computeWeekday t.year t.month t.day) :
    unixToDate (dateToDays t.year t.month t.day * 86400
      + t.hour * 3600 + t.minute * 60 + t.second) = some t := by
  obtain ⟨h1, h2, h3, h4, h5, h6, h7, h8, h9, h10⟩ := isValid_iff.mp hv
  simp only [daysInMonth] at h6
  have hspan := monthSpan_le (isLeapYear t.year) t.month (by omega) h3
  have hyl : yearLenOf t.year = (if isLeapYear t.year = true then 366 else 365) := rfl
  have hdim31 := dimL_le (isLeapYear t.year) t.month (by omega)
  have hD : dateToDays t.year t.month t.day
      = sumYears t.year + (daysBeforeMonth t.month
        + (if 2 < t.month ∧ isLeapYear t.year = true then 1 else 0)
        + (t.day - 1)) := by
    rw [dateToDays, if_pos (⟨h3, h4⟩ : 1 ≤ t.month ∧ t.month ≤ 12),
        if_pos (by omega : 0 < t.day)]
    omega
  have hs2000 : sumYears 2000 = 10957 := by decide
  have hsy : 10957 ≤ sumYears t.year := by
    have := sumYears_mono h1
    omega
  have hR : t.hour * 3600 + t.minute * 60 + t.second < 86400 := by omega
  have hts : dateToDays t.year t.month t.day * 86400
      + t.hour * 3600 + t.minute * 60 + t.second
      = (t.hour * 3600 + t.minute * 60 + t.second)
        + 86400 * dateToDays t.year t.month t.day := by ring
  have hdiv : (dateToDays t.year t.month t.day * 86400
      + t.hour * 3600 + t.minute * 60 + t.second) / 86400
      = dateToDays t.year t.month t.day := by
    rw [hts, Nat.add_mul_div_left _ _ (by omega : 0 < 86400),
        Nat.div_eq_of_lt hR, Nat.zero_add]
  have hmod : (dateToDays t.year t.month t.day * 86400
      + t.hour * 3600 + t.minute * 60 + t.second) % 86400
      = t.hour * 3600 + t.minute * 60 + t.second := by
    rw [hts, Nat.add_mul_mod_self_left, Nat.mod_eq_of_lt hR]
  have hDge : 10957 ≤ dateToDays t.year t.month t.day := by omega
  have hmul : 10957 * 86400 ≤ dateToDays t.year t.month t.day * 86400 :=
    Nat.mul_le_mul_right _ hDge
  rw [unixToDate, if_neg (by simp only [kEpoch2000]; omega)]
  simp only [hdiv, hmod]
  have hyn : 1970 + (t.year - 1970) = t.year := by omega
  have hs1970 : sumYears 1970 = 0 := by decide
  have hfy := findYearAux_inv (t.year - 1970) 131 1970
    (dateToDays t.year t.month t.day) (Nat.le_refl 1970) (by omega) (by omega)
    (by rw [hyn]; omega) (by rw [hyn]; omega)
  rw [hyn, hs1970, Nat.sub_zero] at hfy
  have hrest : dateToDays t.year t.month t.day - sumYears t.year
      = daysBeforeMonth t.month
        + (if 2 < t.month ∧ isLeapYear t.year = true then 1 else 0)
        + (t.day - 1) := by omega
  rw [hrest] at hfy
  rw [hfy]
  rw [if_neg (by omega : ¬ (2099 < t.year ∨ t.year < 2000))]
  have hfm := findMonthAux_inv (isLeapYear t.year) t.month (by omega) t.day
    (by omega) ⟨h3, h5, h6⟩
  simp only [hfm]
  rw [if_neg (by omega : ¬ 12 < t.month)]
  have hd1 : t.day - 1 + 1 = t.day := by omega
  have hhour : (t.hour * 3600 + t.minute * 60 + t.second) / 3600 = t.hour := by
    rw [(by ring : t.hour * 3600 + t.minute * 60 + t.second
          = (t.minute * 60 + t.second) + 3600 * t.hour),
        Nat.add_mul_div_left _ _ (by omega : 0 < 3600),
        Nat.div_eq_of_lt (by omega), Nat.zero_add]
  have hmod2 : (t.hour * 3600 + t.minute * 60 + t.second) % 3600
      = t.minute * 60 + t.second := by
    rw [(by ring : t.hour * 3600 + t.minute * 60 + t.second
          = (t.minute * 60 + t.second) + 3600 * t.hour),
        Nat.add_mul_mod_self_left, Nat.mod_eq_of_lt (by omega)]
  have hmin : (t.minute * 60 + t.second) / 60 = t.minute := by
    rw [(by ring : t.minute * 60 + t.second = t.second + 60 * t.minute),
        Nat.add_mul_div_left _ _ (by omega : 0 < 60),
        Nat.div_eq_of_lt (by omega), Nat.zero_add]
  have hsec : (t.minute * 60 + t.second) % 60 = t.second := by
    rw [(by ring : t.minute * 60 + t.second = t.second + 60 * t.minute),
        Nat.add_mul_mod_self_left, Nat.mod_eq_of_lt (by omega)]
  simp only [hd1, hhour, hmod2, hmin, hsec, ← hw]

/-- C3 (amended): for every calendar value accepted by `isValidDateTime`
whose weekday field agrees with the weekday computed from its date part,
`dateTimeToUnix` succeeds and `unixToDate` maps the timestamp back to the
identical calendar value (every field, weekday included). -/
theorem c3_calendar_roundtrip (t : DateTime) (hv : isValidDateTime t = true)
    (hw : t.weekday = computeWeekday t.year t.month t.day) :
    ∃ ts, dateTimeToUnix t = some ts ∧ unixToDate ts = some t := by
  refine ⟨_, ?_, calendar_roundtrip_core t hv hw⟩
  rw [dateTimeToUnix, if_pos hv]

/-- Witness for C3 (amended), at the leap-day scenario value. -/
theorem c3_calendar_roundtrip_witness :
    ∃ ts, dateTimeToUnix ⟨2020, 2, 29, 12, 34, 56, 6⟩ = some ts ∧
      unixToDate ts = some ⟨2020, 2, 29, 12, 34, 56, 6⟩ :=
  c3_calendar_roundtrip ⟨2020, 2, 29, 12, 34, 56, 6⟩ (by decide) (by decide)

/-- C3 counterexample to the claim as stated: the validation predicate only
range-checks the weekday field (0-6), so a value with an inconsistent weekday
is accepted, lies in the 2000-2099 window, yet does not round-trip: the
weekday comes back as the computed one. -/
theorem c3_weekday_counterexample :
    isValidDateTime ⟨2000, 1, 1, 0, 0, 0, 0⟩ = true ∧
    dateTimeToUnix ⟨2000, 1, 1, 0, 0, 0, 0⟩ = some 946684800 ∧
    unixToDate 946684800 ≠ some ⟨2000, 1, 1, 0, 0, 0, 0⟩ := by decide

/-- C6: `unixToDate` fails for every timestamp outside the 2000-2099 window,
i.e. below 946684800 or at/above 4102444800 (which covers the maximum
32-bit timestamp 4294967295 and the predecessor 946684799 of the window). -/
theorem c6_unixToDate_out_of_range (ts : Nat)
    (h : ts < 946684800 ∨ 4102444800 ≤ ts) : unixToDate ts = none := by
  rcases h with h | h
  · rw [unixToDate, if_pos (by simp only [kEpoch2000]; omega)]
  · have hdays : 47482 ≤ ts / 86400 :=
      (Nat.le_div_iff_mul_le (by omega : 0 < 86400)).mpr (by omega)
    have h2100 : sumYears 2100 = 47482 := by decide
    have h1970 : sumYears 1970 = 0 := by decide
    have hbig := findYearAux_big 131 1970 (ts / 86400) (Nat.le_refl 1970)
      (by omega) (by omega)
    simp only [unixToDate]
    rw [if_neg (by simp only [kEpoch2000]; omega), if_pos (Or.inl (by omega))]

/-- Witness for C6 at the two named boundary inputs. -/
theorem c6_unixToDate_out_of_range_witness :
    unixToDate 4294967295 = none ∧ unixToDate 946684799 = none :=
  ⟨c6_unixToDate_out_of_range 4294967295 (Or.inr (by decide)),
   c6_unixToDate_out_of_range 946684799 (Or.inl (by decide))⟩

/-- C7: the epoch anchor holds exactly: 2000-01-01 00:00:00 converts to
946684800, converts back identically, and the first day of the window has
weekday index 6. -/
theorem c7_epoch_anchor :
    dateTimeToUnix ⟨2000, 1, 1, 0, 0, 0, 6⟩ = some 946684800 ∧
    unixToDate 946684800 = some ⟨2000, 1, 1, 0, 0, 0, 6⟩ ∧
    computeWeekday 2000 1 1 = 6 := by decide

/-- C9: for every integer 0-99, decoding the packed-decimal encoding returns
the original integer. -/
theorem c9_bcd_roundtrip : ∀ n, n ≤ 99 → bcdToBinary (binaryToBcd n) = n := by
  decide

/-- Witness for C9 at a concrete input. -/
theorem c9_bcd_roundtrip_witness : bcdToBinary (binaryToBcd 59) = 59 :=
  c9_bcd_roundtrip 59 (by decide)

-- ===== Driver lemmas and claim theorems =====

/-- C4: the diagnostic probe never mutates driver state: for every driver
state and every injected transport (including one that fails), `probe`
changes only the returned result and leaves the entire driver member state
(consecutive-failure counter, lifetime counters, last-success/last-failure
records, availability state) exactly as it was. -/
theorem c4_probe_health_neutral {β : Type} (B : BusModel β) (s : Sys β) :
    (probe B s).2.drv = s.drv := by
  unfold probe readRegisterRaw i2cWriteReadRaw
  split_ifs <;> rfl

/-- C1: while the driver is initialized, a tracked outcome whose error kind
is `OK` or `IN_PROGRESS` resets the consecutive-failure counter, stamps the
success time, increments the lifetime success counter saturating at
`UINT32_MAX`, and moves `DEGRADED`/`OFFLINE` to `READY`; any other outcome
records the result and timestamp, increments the consecutive-failure counter
(saturating at 255) and the lifetime failure counter (saturating at
`UINT32_MAX`), moves to `OFFLINE` whenever the new count reaches the
configured threshold, and otherwise moves `READY` with a first consecutive
failure to `DEGRADED`. -/
theorem c1_updateHealth_spec (d : RV3032St) (st : Status) (now : Nat)
    (hinit : d.initialized = true) :
    ((st.code = Err.OK ∨ st.code = Err.IN_PROGRESS) →
      (updateHealth now st d).consecutiveFailures = 0 ∧
      (updateHealth now st d).lastOkMs = now ∧
      (updateHealth now st d).totalSuccess
        = (if d.totalSuccess < 4294967295 then d.totalSuccess + 1
           else d.totalSuccess) ∧
      ((d.driverState = DriverState.DEGRADED ∨
        d.driverState = DriverState.OFFLINE) →
        (updateHealth now st d).driverState = DriverState.READY)) ∧
    (¬ (st.code = Err.OK ∨ st.code = Err.IN_PROGRESS) →
      (updateHealth now st d).lastError = st ∧
      (updateHealth now st d).lastErrorMs = now ∧
      (updateHealth now st d).consecutiveFailures
        = (if d.consecutiveFailures < 255 then d.consecutiveFailures + 1
           else d.consecutiveFailures) ∧
      (updateHealth now st d).totalFailures
        = (if d.totalFailures < 4294967295 then d.totalFailures + 1
           else d.totalFailures) ∧
      (d.config.offlineThreshold ≤ (updateHealth now st d).consecutiveFailures →
        (updateHealth now st d).driverState = DriverState.OFFLINE) ∧
      (d.driverState = DriverState.READY ∧
          (updateHealth now st d).consecutiveFailures = 1 ∧
          (updateHealth now st d).consecutiveFailures
            < d.config.offlineThreshold →
        (updateHealth now st d).driverState = DriverState.DEGRADED)) := by
  constructor
  · intro hs
    rw [updateHealth, if_pos hs]
    split_ifs <;> simp_all
    all_goals (split_ifs <;> simp_all)
  · intro hf
    rw [updateHealth, if_neg hf]
    split_ifs <;> simp_all
    all_goals (try (split_ifs <;> simp_all))
    all_goals omega

/-- Witness for C1: one forced communication failure on a freshly ready
driver moves it to `DEGRADED` with one consecutive failure. -/
theorem c1_updateHealth_spec_witness :
    (updateHealth 7 (Status.Error Err.I2C_ERROR "forced read failure" (-3))
      { initialState
          { hasI2cWrite := true, hasI2cWriteRead := true, i2cAddress := 0x51,
            i2cTimeoutMs := 50, backupMode := BackupSwitchMode.Level,
            enableEepromWrites := false, eepromTimeoutMs := 200,
            offlineThreshold := 3 } with
        initialized := true,
        driverState := DriverState.READY }).driverState
      = DriverState.DEGRADED := by
  have h := (c1_updateHealth_spec
    { initialState
        { hasI2cWrite := true, hasI2cWriteRead := true, i2cAddress := 0x51,
          i2cTimeoutMs := 50, backupMode := BackupSwitchMode.Level,
          enableEepromWrites := false, eepromTimeoutMs := 200,
          offlineThreshold := 3 } with
      initialized := true,
      driverState := DriverState.READY }
    (Status.Error Err.I2C_ERROR "forced read failure" (-3)) 7 rfl).2
    (by decide)
  exact h.2.2.2.2.2 ⟨rfl, by decide, by decide⟩

/-- C5 (amended): on a driver that is not already initialized, `begin` with
any bus address other than 0x51 returns the configuration-invalid error kind
and leaves the driver state, the bus, and the transaction transcript
completely untouched (so the presence probe is never reached). -/
theorem c5_begin_bad_address {β : Type} (B : BusModel β) (cfg : Config)
    (s : Sys β) (hinit : s.drv.initialized = false)
    (haddr : cfg.i2cAddress ≠ 0x51) :
    (beginOp B cfg s).1.code = Err.INVALID_CONFIG ∧ (beginOp B cfg s).2 = s := by
  rw [beginOp]
  simp only [hinit]
  by_cases hcb : cfg.hasI2cWrite = false ∨ cfg.hasI2cWriteRead = false
  · rw [if_pos hcb]; exact ⟨rfl, rfl⟩
  · rw [if_neg hcb, if_pos haddr]; exact ⟨rfl, rfl⟩

/-- Witness for C5 (amended) at a concrete uninitialized driver. -/
theorem c5_begin_bad_address_witness :
    (beginOp regBus
        { hasI2cWrite := true, hasI2cWriteRead := true, i2cAddress := 0x52,
          i2cTimeoutMs := 50, backupMode := BackupSwitchMode.Level,
          enableEepromWrites := false, eepromTimeoutMs := 200,
          offlineThreshold := 3 }
        { drv := initialState
            { hasI2cWrite := true, hasI2cWriteRead := true, i2cAddress := 0x51,
              i2cTimeoutMs := 50, backupMode := BackupSwitchMode.Level,
              enableEepromWrites := false, eepromTimeoutMs := 200,
              offlineThreshold := 3 },
          bus := fun _ => 0, trace := [], now := 0 }).1.code
      = Err.INVALID_CONFIG ∧
    (beginOp regBus
        { hasI2cWrite := true, hasI2cWriteRead := true, i2cAddress := 0x52,
          i2cTimeoutMs := 50, backupMode := BackupSwitchMode.Level,
          enableEepromWrites := false, eepromTimeoutMs := 200,
          offlineThreshold := 3 }
        { drv := initialState
            { hasI2cWrite := true, hasI2cWriteRead := true, i2cAddress := 0x51,
              i2cTimeoutMs := 50, backupMode := BackupSwitchMode.Level,
              enableEepromWrites := false, eepromTimeoutMs := 200,
              offlineThreshold := 3 },
          bus := fun _ => 0, trace := [], now := 0 }).2
      = { drv := initialState
            { hasI2cWrite := true, hasI2cWriteRead := true, i2cAddress := 0x51,
              i2cTimeoutMs := 50, backupMode := BackupSwitchMode.Level,
              enableEepromWrites := false, eepromTimeoutMs := 200,
              offlineThreshold := 3 },
          bus := fun _ => 0, trace := [], now := 0 } :=
  c5_begin_bad_address regBus _ _ rfl (by decide)

/-- C5 counterexample to the claim as stated: on an initialized driver,
`begin` first runs `end()` before validating the configuration, so a
config-invalid call does mutate driver state (the success counter and the
availability state are wiped). -/
theorem c5_begin_counterexample :
    ((beginOp regBus
        { hasI2cWrite := true, hasI2cWriteRead := true, i2cAddress := 0x52,
          i2cTimeoutMs := 50, backupMode := BackupSwitchMode.Level,
          enableEepromWrites := false, eepromTimeoutMs := 200,
          offlineThreshold := 3 }
        { drv := { initialState
              { hasI2cWrite := true, hasI2cWriteRead := true,
                i2cAddress := 0x51, i2cTimeoutMs := 50,
                backupMode := BackupSwitchMode.Level,
                enableEepromWrites := false, eepromTimeoutMs := 200,
                offlineThreshold := 3 } with
            initialized := true, driverState := DriverState.READY,
            totalSuccess := 3 },
          bus := fun _ => 0, trace := [], now := 0 }).1.code
      = Err.INVALID_CONFIG) ∧
    ((beginOp regBus
        { hasI2cWrite := true, hasI2cWriteRead := true, i2cAddress := 0x52,
          i2cTimeoutMs := 50, backupMode := BackupSwitchMode.Level,
          enableEepromWrites := false, eepromTimeoutMs := 200,
          offlineThreshold := 3 }
        { drv := { initialState
              { hasI2cWrite := true, hasI2cWriteRead := true,
                i2cAddress := 0x51, i2cTimeoutMs := 50,
                backupMode := BackupSwitchMode.Level,
                enableEepromWrites := false, eepromTimeoutMs := 200,
                offlineThreshold := 3 } with
            initialized := true, driverState := DriverState.READY,
            totalSuccess := 3 },
          bus := fun _ => 0, trace := [], now := 0 }).2.drv.totalSuccess
      = 0) ∧
    ((beginOp regBus
        { hasI2cWrite := true, hasI2cWriteRead := true, i2cAddress := 0x52,
          i2cTimeoutMs := 50, backupMode := BackupSwitchMode.Level,
          enableEepromWrites := false, eepromTimeoutMs := 200,
          offlineThreshold := 3 }
        { drv := { initialState
              { hasI2cWrite := true, hasI2cWriteRead := true,
                i2cAddress := 0x51, i2cTimeoutMs := 50,
                backupMode := BackupSwitchMode.Level,
                enableEepromWrites := false, eepromTimeoutMs := 200,
                offlineThreshold := 3 } with
            initialized := true, driverState := DriverState.READY,
            totalSuccess := 3 },
          bus := fun _ => 0, trace := [], now := 0 }).2.drv.driverState
      = DriverState.UNINIT) := by
  refine ⟨rfl, rfl, rfl⟩

lemma eepromQueueList_push (e : EepromOp) (reg value : Nat)
    (hwf : eepromQueueWF e) (hlt : e.queueCount < kEepromQueueSize) :
    eepromQueueList (eepromQueuePush e reg value).2
      = eepromQueueList e ++ [⟨reg, value⟩] := by
  obtain ⟨ht, hc, hh⟩ := hwf
  simp only [kEepromQueueSize] at ht hc hh hlt
  rw [eepromQueuePush, if_neg (by simp only [kEepromQueueSize]; omega)]
  simp only [eepromQueueList, kEepromQueueSize]
  rw [List.range_succ, List.map_append]
  congr 1
  · apply List.map_congr_left
    intro i hi
    rw [List.mem_range] at hi
    dsimp only
    rw [if_neg (by omega)]
  · simp only [List.map_cons, List.map_nil]
    rw [if_pos hh.symm]

lemma eepromQueueWF_push (e : EepromOp) (reg value : Nat)
    (hwf : eepromQueueWF e) (hlt : e.queueCount < kEepromQueueSize) :
    eepromQueueWF (eepromQueuePush e reg value).2 := by
  obtain ⟨ht, hc, hh⟩ := hwf
  simp only [kEepromQueueSize] at ht hc hh hlt
  rw [eepromQueuePush, if_neg (by simp only [kEepromQueueSize]; omega)]
  refine ⟨?_, ?_, ?_⟩ <;> simp only [kEepromQueueSize] <;> omega

lemma eepromQueuePop_fifo (e : EepromOp) (hwf : eepromQueueWF e)
    (hpos : 0 < e.queueCount) :
    (eepromQueuePop e).1
      = some (((eepromQueueList e).headD ⟨0, 0⟩).reg,
              ((eepromQueueList e).headD ⟨0, 0⟩).value) ∧
    eepromQueueList (eepromQueuePop e).2 = (eepromQueueList e).tail := by
  obtain ⟨ht, hc, hh⟩ := hwf
  simp only [kEepromQueueSize] at ht hc hh
  obtain ⟨k, hk⟩ : ∃ k, e.queueCount = k + 1 := ⟨e.queueCount - 1, by omega⟩
  rw [eepromQueuePop, if_neg (by omega)]
  constructor
  · rw [eepromQueueList, hk, List.range_succ_eq_map, List.map_cons,
        List.headD_cons]
    dsimp only
    rw [(by simp only [kEepromQueueSize]; omega :
      (e.queueTail + 0) % kEepromQueueSize = e.queueTail)]
  · simp only [eepromQueueList, hk]
    rw [(by omega : k + 1 - 1 = k), List.range_succ_eq_map, List.map_cons,
        List.tail_cons, List.map_map]
    apply List.map_congr_left
    intro i hi
    simp only [Function.comp]
    congr 1
    rw [Nat.mod_add_mod]
    congr 1
    omega

lemma eepromQueueWF_pop (e : EepromOp) (hwf : eepromQueueWF e)
    (hpos : 0 < e.queueCount) : eepromQueueWF (eepromQueuePop e).2 := by
  obtain ⟨ht, hc, hh⟩ := hwf
  simp only [kEepromQueueSize] at ht hc hh
  rw [eepromQueuePop, if_neg (by omega)]
  refine ⟨?_, ?_, ?_⟩ <;> simp only [kEepromQueueSize] <;> omega

/-- C2: with the persistence engine busy (not idle, or queue non-empty),
handing over a pair to a full queue (8 entries) returns the queue-full error
kind and leaves the driver state (queue contents, head, tail, count included)
unchanged; with fewer than 8 entries the pair is appended to the queue
(preserving the ring-buffer invariant) and the caller receives the
operation-queued kind; dequeuing always removes the oldest entry (strict
first-in-first-out service order). -/
theorem c2_queue_bound (d : RV3032St) (reg value now : Nat)
    (hwf : eepromQueueWF d.eeprom)
    (hbusy : d.eeprom.state ≠ EepromState.Idle ∨ 0 < d.eeprom.queueCount) :
    (kEepromQueueSize ≤ d.eeprom.queueCount →
      (queueEepromUpdate d reg value now).1.code = Err.QUEUE_FULL ∧
      (queueEepromUpdate d reg value now).2 = d) ∧
    (d.eeprom.queueCount < kEepromQueueSize →
      (queueEepromUpdate d reg value now).1.code = Err.IN_PROGRESS ∧
      eepromQueueList (queueEepromUpdate d reg value now).2.eeprom
        = eepromQueueList d.eeprom ++ [⟨reg, value⟩] ∧
      eepromQueueWF (queueEepromUpdate d reg value now).2.eeprom) ∧
    (0 < d.eeprom.queueCount →
      (eepromQueuePop d.eeprom).1
        = some (((eepromQueueList d.eeprom).headD ⟨0, 0⟩).reg,
                ((eepromQueueList d.eeprom).headD ⟨0, 0⟩).value) ∧
      eepromQueueList (eepromQueuePop d.eeprom).2
        = (eepromQueueList d.eeprom).tail ∧
      eepromQueueWF (eepromQueuePop d.eeprom).2) := by
  refine ⟨?_, ?_, ?_⟩
  · intro hfull
    rw [queueEepromUpdate, if_pos hbusy]
    rw [eepromQueuePush, if_pos hfull]
    exact ⟨rfl, rfl⟩
  · intro hlt
    rw [queueEepromUpdate, if_pos hbusy]
    have hp : (eepromQueuePush d.eeprom reg value).1 = true := by
      rw [eepromQueuePush, if_neg (by omega)]
    rw [if_neg (by rw [hp]; exact fun h => Bool.noConfusion h)]
    exact ⟨rfl, eepromQueueList_push d.eeprom reg value hwf hlt,
      eepromQueueWF_push d.eeprom reg value hwf hlt⟩
  · intro hpos
    exact ⟨(eepromQueuePop_fifo d.eeprom hwf hpos).1,
      (eepromQueuePop_fifo d.eeprom hwf hpos).2,
      eepromQueueWF_pop d.eeprom hwf hpos⟩

/-- Witness for C2: a concrete busy engine with a full queue rejects the
ninth pending write and keeps the state identical. -/
theorem c2_queue_bound_witness :
    (queueEepromUpdate
        { initialState
            { hasI2cWrite := true, hasI2cWriteRead := true, i2cAddress := 0x51,
              i2cTimeoutMs := 50, backupMode := BackupSwitchMode.Level,
              enableEepromWrites := true, eepromTimeoutMs := 200,
              offlineThreshold := 3 } with
          eeprom := { EepromOp.init with queueCount := 8 } }
        0xC1 0x12 0).1.code = Err.QUEUE_FULL ∧
    (queueEepromUpdate
        { initialState
            { hasI2cWrite := true, hasI2cWriteRead := true, i2cAddress := 0x51,
              i2cTimeoutMs := 50, backupMode := BackupSwitchMode.Level,
              enableEepromWrites := true, eepromTimeoutMs := 200,
              offlineThreshold := 3 } with
          eeprom := { EepromOp.init with queueCount := 8 } }
        0xC1 0x12 0).2
      = { initialState
            { hasI2cWrite := true, hasI2cWriteRead := true, i2cAddress := 0x51,
              i2cTimeoutMs := 50, backupMode := BackupSwitchMode.Level,
              enableEepromWrites := true, eepromTimeoutMs := 200,
              offlineThreshold := 3 } with
          eeprom := { EepromOp.init with queueCount := 8 } } :=
  (c2_queue_bound
    { initialState
        { hasI2cWrite := true, hasI2cWriteRead := true, i2cAddress := 0x51,
          i2cTimeoutMs := 50, backupMode := BackupSwitchMode.Level,
          enableEepromWrites := true, eepromTimeoutMs := 200,
          offlineThreshold := 3 } with
      eeprom := { EepromOp.init with queueCount := 8 } }
    0xC1 0x12 0 ⟨by decide, by decide, by decide⟩
    (Or.inr (by decide))).1 (by decide)

lemma updateHealth_initialized (now : Nat) (st : Status) (d : RV3032St) :
    (updateHealth now st d).initialized = d.initialized := by
  simp only [updateHealth]; split_ifs <;> rfl

lemma updateHealth_beginInProgress (now : Nat) (st : Status) (d : RV3032St) :
    (updateHealth now st d).beginInProgress = d.beginInProgress := by
  simp only [updateHealth]; split_ifs <;> rfl

lemma updateHealth_config (now : Nat) (st : Status) (d : RV3032St) :
    (updateHealth now st d).config = d.config := by
  simp only [updateHealth]; split_ifs <;> rfl

lemma updateHealth_eeprom (now : Nat) (st : Status) (d : RV3032St) :
    (updateHealth now st d).eeprom = d.eeprom := by
  simp only [updateHealth]; split_ifs <;> rfl

lemma updateHealth_eepromLastStatus (now : Nat) (st : Status) (d : RV3032St) :
    (updateHealth now st d).eepromLastStatus = d.eepromLastStatus := by
  simp only [updateHealth]; split_ifs <;> rfl

lemma readRegister_regBus (s : Sys (Nat → Nat)) (reg : Nat)
    (hpre : ¬ (s.drv.initialized = false ∧ s.drv.beginInProgress = false))
    (hcb : s.drv.config.hasI2cWriteRead = true) :
    readRegister regBus s reg
      = ((Status.Ok, s.bus (reg % 256) % 256),
         { s with trace := s.trace
                    ++ [BusEvent.read s.drv.config.i2cAddress [reg] 1],
                  drv := updateHealth s.now Status.Ok s.drv }) := by
  simp [readRegister, readRegs, i2cWriteReadTracked, i2cWriteReadRaw, regBus,
    readBytes, hpre, hcb, List.range_succ, Status.Ok]

lemma writeRegister_regBus (s : Sys (Nat → Nat)) (reg v : Nat)
    (hpre : ¬ (s.drv.initialized = false ∧ s.drv.beginInProgress = false))
    (hcb : s.drv.config.hasI2cWrite = true) :
    writeRegister regBus s reg v
      = (Status.Ok,
         { s with bus := fun r => if r = reg % 256 then v % 256 else s.bus r,
                  trace := s.trace
                    ++ [BusEvent.write s.drv.config.i2cAddress [reg, v]],
                  drv := updateHealth s.now Status.Ok s.drv }) := by
  simp [writeRegister, writeRegs, i2cWriteTracked, i2cWriteRaw, regBus,
    storeBytes, hpre, hcb, Status.Ok]

/-- C10: when the target register already holds the requested value, the
non-volatile write helper returns plain success right after the initial read,
issues no write transaction (the transcript gains exactly the one read event
and the register file is untouched), and neither starts nor enqueues any
persistence work: engine state, queue and last persistence status are
unchanged. -/
theorem c10_writeEepromRegister_skip (s : Sys (Nat → Nat)) (reg value : Nat)
    (hinit : s.drv.initialized = true)
    (hcb : s.drv.config.hasI2cWriteRead = true)
    (heq : s.bus (reg % 256) % 256 = value) :
    (writeEepromRegister regBus s reg value).1 = Status.Ok ∧
    (writeEepromRegister regBus s reg value).2.drv.eeprom = s.drv.eeprom ∧
    (writeEepromRegister regBus s reg value).2.drv.eepromLastStatus
      = s.drv.eepromLastStatus ∧
    (writeEepromRegister regBus s reg value).2.trace
      = s.trace ++ [BusEvent.read s.drv.config.i2cAddress [reg] 1] ∧
    (writeEepromRegister regBus s reg value).2.bus = s.bus := by
  have hpre : ¬ (s.drv.initialized = false ∧ s.drv.beginInProgress = false) := by
    simp [hinit]
  rw [writeEepromRegister, readRegister_regBus s reg hpre hcb]
  dsimp only
  rw [if_neg (by decide), if_pos heq]
  exact ⟨rfl, updateHealth_eeprom _ _ _, updateHealth_eepromLastStatus _ _ _,
    rfl, rfl⟩

lemma nibble_preserved : ∀ a, a < 256 → ∀ c, c < 16 →
    ((a &&& 0xF0) ||| c) &&& 0xF0 = a &&& 0xF0 := by decide

lemma nibble_low : ∀ a, a < 256 → ∀ c, c < 16 →
    ((a &&& 0xF0) ||| c) &&& 0x0F = c := by decide

lemma highByte_lt : ∀ a, a < 256 → ∀ c, c < 16 →
    ((a &&& 0xF0) ||| c) < 256 := by decide

/-- C8: for every in-range tick count (0-4095) `setTimer` modifies only the
counter's own bits of the two timer registers: the low register receives the
low byte, the counter nibble of the timer-high register receives the high
bits, and the upper reserved nibble of the timer-high register retains
exactly the value it held before the operation. -/
theorem c8_setTimer_reserved (s : Sys (Nat → Nat)) (ticks freqRaw : Nat)
    (enable : Bool)
    (hinit : s.drv.initialized = true)
    (hcbR : s.drv.config.hasI2cWriteRead = true)
    (hcbW : s.drv.config.hasI2cWrite = true)
    (hticks : ticks ≤ 0x0FFF) (hfreq : freqRaw ≤ 3) :
    (setTimer regBus s ticks freqRaw enable).1 = Status.Ok ∧
    (setTimer regBus s ticks freqRaw enable).2.bus 0x0C &&& 0xF0
      = (s.bus 0x0C % 256) &&& 0xF0 ∧
    (setTimer regBus s ticks freqRaw enable).2.bus 0x0C &&& 0x0F
      = (ticks >>> 8) &&& 0x0F ∧
    (setTimer regBus s ticks freqRaw enable).2.bus 0x0B = ticks &&& 0xFF := by
  have hn1 : ¬ (0x0FFF < ticks) := by omega
  have hn2 : ¬ (3 < freqRaw) := by omega
  simp [setTimer, hn1, hn2, hinit, hcbR, hcbW,
        readRegister_regBus, writeRegister_regBus,
        updateHealth_initialized, updateHealth_config, Status.Ok]
  have ha : s.bus 12 % 256 < 256 := Nat.mod_lt _ (by omega)
  have hc : ticks >>> 8 &&& 15 < 16 :=
    lt_of_le_of_lt Nat.and_le_right (by omega)
  rw [Nat.mod_eq_of_lt (highByte_lt _ ha _ hc)]
  exact ⟨nibble_preserved _ ha _ hc, nibble_low _ ha _ hc,
    lt_of_le_of_lt Nat.and_le_right (by omega)⟩

/-- Witness for C10 at a concrete driver, register and matching value. -/
theorem c10_writeEepromRegister_skip_witness :
    (writeEepromRegister regBus
        { drv := { initialState
              { hasI2cWrite := true, hasI2cWriteRead := true,
                i2cAddress := 0x51, i2cTimeoutMs := 50,
                backupMode := BackupSwitchMode.Level,
                enableEepromWrites := true, eepromTimeoutMs := 200,
                offlineThreshold := 3 } with
            initialized := true, driverState := DriverState.READY },
          bus := fun _ => 0x12, trace := [], now := 0 }
        0xC1 0x12).1 = Status.Ok ∧
    (writeEepromRegister regBus
        { drv := { initialState
              { hasI2cWrite := true, hasI2cWriteRead := true,
                i2cAddress := 0x51, i2cTimeoutMs := 50,
                backupMode := BackupSwitchMode.Level,
                enableEepromWrites := true, eepromTimeoutMs := 200,
                offlineThreshold := 3 } with
            initialized := true, driverState := DriverState.READY },
          bus := fun _ => 0x12, trace := [], now := 0 }
        0xC1 0x12).2.drv.eeprom
      = ({ initialState
            { hasI2cWrite := true, hasI2cWriteRead := true,
              i2cAddress := 0x51, i2cTimeoutMs := 50,
              backupMode := BackupSwitchMode.Level,
              enableEepromWrites := true, eepromTimeoutMs := 200,
              offlineThreshold := 3 } with
          initialized := true, driverState := DriverState.READY } : RV3032St).eeprom := by
  have h := c10_writeEepromRegister_skip
    { drv := { initialState
          { hasI2cWrite := true, hasI2cWriteRead := true,
            i2cAddress := 0x51, i2cTimeoutMs := 50,
            backupMode := BackupSwitchMode.Level,
            enableEepromWrites := true, eepromTimeoutMs := 200,
            offlineThreshold := 3 } with
        initialized := true, driverState := DriverState.READY },
      bus := fun _ => 0x12, trace := [], now := 0 }
    0xC1 0x12 rfl rfl (by decide)
  exact ⟨h.1, h.2.1⟩

/-- Witness for C8 at the unit test's scenario: ticks 0x456 against a
timer-high register holding 0xA0. -/
theorem c8_setTimer_reserved_witness :
    (setTimer regBus
        { drv := { initialState
              { hasI2cWrite := true, hasI2cWriteRead := true,
                i2cAddress := 0x51, i2cTimeoutMs := 50,
                backupMode := BackupSwitchMode.Level,
                enableEepromWrites := false, eepromTimeoutMs := 200,
                offlineThreshold := 3 } with
            initialized := true, driverState := DriverState.READY },
          bus := fun _ => 0xA0, trace := [], now := 0 }
        0x456 2 true).2.bus 0x0C &&& 0xF0
      = ((fun _ => 0xA0) 0x0C % 256) &&& 0xF0 ∧
    (setTimer regBus
        { drv := { initialState
              { hasI2cWrite := true, hasI2cWriteRead := true,
                i2cAddress := 0x51, i2cTimeoutMs := 50,
                backupMode := BackupSwitchMode.Level,
                enableEepromWrites := false, eepromTimeoutMs := 200,
                offlineThreshold := 3 } with
            initialized := true, driverState := DriverState.READY },
          bus := fun _ => 0xA0, trace := [], now := 0 }
        0x456 2 true).2.bus 0x0C &&& 0x0F
      = (0x456 >>> 8) &&& 0x0F := by
  have h := c8_setTimer_reserved
    { drv := { initialState
          { hasI2cWrite := true, hasI2cWriteRead := true,
            i2cAddress := 0x51, i2cTimeoutMs := 50,
            backupMode := BackupSwitchMode.Level,
            enableEepromWrites := false, eepromTimeoutMs := 200,
            offlineThreshold := 3 } with
        initialized := true, driverState := DriverState.READY },
      bus := fun _ => 0xA0, trace := [], now := 0 }
    0x456 2 true rfl rfl rfl (by decide) (by decide)
  exact ⟨h.2.1, h.2.2.1⟩
